import Mathlib

/-!
Shallow embedding of the refresh-service decision engine
(`service/refresh.go` and the issuer-service collaborator) and proofs
about its specification.

Modelling conventions:
* Go `interface{}` values decoded from JSON become the inductive `Value`
  (string / number / bool / null / array / object).  JSON numbers decode
  to Go `float64`; we model them as rationals, which represent every
  finite `float64` exactly.
* Go maps `map[string]interface{}` become association lists
  `List (String × Value)`; `lookupVal` is map indexing (first match) and
  `insertVal` is map assignment.
* External collaborators (issuer HTTP API, document loader, claim
  parser / slot-index oracle, update provider) are parameters of the
  model: total Lean functions returning `Except`-style results, with a
  `GoRes.panic` constructor where a Go panic at a call site matters.
* `time.Time` values are modelled as integer timestamps.
-/

namespace RefreshProof

/-- A decoded JSON value (Go `interface{}` after `encoding/json` decoding). -/
inductive Value where
  | str (s : String)
  | num (q : ℚ)
  | bool (b : Bool)
  | null
  | arr (xs : List Value)
  | obj (fields : List (String × Value))

/-- Go `==` on two decoded `interface{}` values.  Operands of different
dynamic types (and nil against anything) compare unequal without fault;
operands of the same comparable dynamic type (string, float64, bool)
compare by value; operands of the same uncomparable dynamic type — a
JSON array is a Go slice, a JSON object a Go map — make the comparison
PANIC at runtime, modelled as `none`. -/
def goValueEq : Value → Value → Option Bool
  | .str a, .str b => some (a == b)
  | .num a, .num b => some (a == b)
  | .bool a, .bool b => some (a == b)
  | .null, .null => some true
  | .arr _, .arr _ => none
  | .obj _, .obj _ => none
  | _, _ => some false

/-- Decidable equality for `Except` results, used to evaluate the model
on concrete inputs. -/
instance {ε α : Type} [DecidableEq ε] [DecidableEq α] :
    DecidableEq (Except ε α) := fun a b =>
  match a, b with
  | .ok x, .ok y =>
    if h : x = y then isTrue (by rw [h])
    else isFalse (by intro hc; cases hc; exact h rfl)
  | .error x, .error y =>
    if h : x = y then isTrue (by rw [h])
    else isFalse (by intro hc; cases hc; exact h rfl)
  | .ok _, .error _ => isFalse (by intro hc; cases hc)
  | .error _, .ok _ => isFalse (by intro hc; cases hc)

/-- Whether `needle` occurs as a contiguous sublist of the second list. -/
def containsSub (needle : List Char) : List Char → Bool
  | [] => needle.isEmpty
  | c :: rest => needle.isPrefixOf (c :: rest) || containsSub needle rest

/-- Go `strings.Contains(hay, needle)` on the character-list view. -/
def goContains (hay needle : String) : Bool :=
  containsSub needle.data hay.data

/-- Go `unicode.IsSpace`: the Unicode White_Space property —
U+0009-U+000D, space, NEL, NBSP, OGHAM SPACE MARK, U+2000-U+200A, LINE
and PARAGRAPH SEPARATOR, NARROW NO-BREAK SPACE, MEDIUM MATHEMATICAL
SPACE, IDEOGRAPHIC SPACE. -/
def goIsSpace (c : Char) : Bool :=
  c.val = 0x09 || c.val = 0x0A || c.val = 0x0B || c.val = 0x0C ||
  c.val = 0x0D || c.val = 0x20 || c.val = 0x85 || c.val = 0xA0 ||
  c.val = 0x1680 || (0x2000 ≤ c.val && c.val ≤ 0x200A) ||
  c.val = 0x2028 || c.val = 0x2029 || c.val = 0x202F || c.val = 0x205F ||
  c.val = 0x3000

/-- Go `strings.TrimSpace`: drop leading and trailing characters of the
Unicode White_Space class. -/
def goTrimSpace (s : String) : String :=
  ⟨((s.data.dropWhile goIsSpace).reverse.dropWhile goIsSpace).reverse⟩

/-- Go map indexing `m[k]` (with the `ok` flag as `Option`), on the
association-list model: first entry with the given key. -/
def lookupVal : List (String × Value) → String → Option Value
  | [], _ => none
  | (k', v) :: rest, k => if k' = k then some v else lookupVal rest k

/-- Go map assignment `m[k] = v` on the association-list model: replace
the first entry with the given key, or append. -/
def insertVal : List (String × Value) → String → Value → List (String × Value)
  | [], k, v => [(k, v)]
  | (k', v') :: rest, k, v =>
    if k' = k then (k, v) :: rest else (k', v') :: insertVal rest k v

/-- The subject-merge step of `Process` (refresh.go lines 162-164):
`for k, v := range updatedFields { credential.CredentialSubject[k] = v }`. -/
def mergeFields (subj upd : List (String × Value)) : List (String × Value) :=
  upd.foldl (fun m kv => insertVal m kv.1 kv.2) subj

/-- The fields of `verifiable.W3CCredential` that the engine reads or
writes.  Nil-able Go pointers and slices become `Option`. -/
structure Credential where
  id : String
  issuer : String
  typeList : Option (List String)
  expiration : Option Int
  credentialSubject : Option (List (String × Value))
  credentialStatus : Value
  credentialSchemaID : String
  context : Option (List String)
  refreshService : Option Value
  displayMethod : Option Value

/-- `core.MerklizedRootPosition` of a parsed claim. -/
inductive MerklizedPosition where
  | index
  | value
  | nonePos

/-- Outcome of a call into an external collaborator, or of a code
fragment that may fault: a normal value, a returned Go error, or a
runtime panic unwinding out of it. -/
inductive GoRes (α : Type) where
  | ok (a : α)
  | err (msg : String)
  | panic (msg : String)
  deriving DecidableEq

/-- The message of `errIndexSlotsNotUpdated` ("no index fields were
updated"), the rejection returned when no index-slot field changed. -/
def errIndexSlotsNotUpdated : String := "no index fields were updated"

/-- Embedding of `isUpdatable` (refresh.go lines 201-232).  `now` is the
value of `time.Now()`; the nil-credential guard is vacuous here because
the model has no nil structs. -/
def isUpdatable (now : Int) (c : Credential) : Except String Unit :=
  match c.expiration with
  | none => .error "credential expiration is nil"
  | some exp =>
    if now < exp then .error "not expired"
    else
      match c.credentialSubject with
      | none => .error "credential subject is nil"
      | some subj =>
        match lookupVal subj "id" with
        | none => .error "id field missing in credentialSubject"
        | some .null => .error "id field is nil in credentialSubject"
        | some (.str s) =>
          if goTrimSpace s = "" then
            .error "credential subject does not have a valid id"
          else .ok ()
        | some _ => .error "credential subject does not have a valid id"

/-- Embedding of `checkOwnerShip` (refresh.go lines 234-252).  The Go
comparison `idValue != owner` compares an `interface{}` with a string:
equal exactly when the dynamic type is `string` and the contents match. -/
def checkOwnerShip (c : Credential) (owner : String) : Except String Unit :=
  match c.credentialSubject with
  | none => .error "credential subject is nil"
  | some subj =>
    match lookupVal subj "id" with
    | none => .error "credential subject does not have an id field"
    | some idv =>
      if goValueEq idv (.str owner) = some true then .ok ()
      else .error "not owner of the credential"

/-- Truncation toward zero of a rational. -/
def ratTrunc (q : ℚ) : ℤ := if 0 ≤ q then ⌊q⌋ else ⌈q⌉

/-- Go's non-constant conversion `uint64(n)` for a finite `float64` `n`,
as compiled on amd64.  For `n` below 2^63 the compiler emits CVTTSD2SI
(truncate to int64, yielding the integer-indefinite value 0x8000…0 =
2^63-as-uint64 when the truncation falls below −2^63) and reinterprets
the bits as uint64, so in-range negative values wrap modulo 2^64; for
`n` in [2^63, 2^64) it converts `n` − 2^63 and XORs the top bit back
in; for `n` at or above 2^64 the inner conversion is indefinite and the
XOR yields 0. -/
def goFloat64ToUint64 (q : ℚ) : ℕ :=
  if q < 2 ^ 63 then
    if ratTrunc q < -(2 ^ 63) then 2 ^ 63
    else ((ratTrunc q) % (2 ^ 64 : ℤ)).toNat
  else if q < 2 ^ 64 then (ratTrunc q).toNat
  else 0

/-- Modelled from the claim's words: the uint64 conversion as the claim
describes it — fractional part truncated, negative values wrapped
(reduction modulo 2^64 of the truncation). -/
def truncWrapUint64 (q : ℚ) : ℕ :=
  ((ratTrunc q) % (2 ^ 64 : ℤ)).toNat

/-- Embedding of `extractRevocationNonce` (refresh.go lines 384-401).
`CredentialStatus` is `interface{}`; the cast
`credential.CredentialStatus.(map[string]interface{})` succeeds exactly
on the `obj` variant, and the `nonce.(float64)` cast exactly on `num`. -/
def extractRevocationNonce (c : Credential) : Except String ℕ :=
  match c.credentialStatus with
  | .obj statusFields =>
    match lookupVal statusFields "revocationNonce" with
    | none => .error "revocationNonce not found in credential status"
    | some (.num q) => .ok (goFloat64ToUint64 q)
    | some _ => .error "revocationNonce is not a number"
  | _ => .error "invalid credential status"

/-- The document-loader collaborator (`ld.DocumentLoader`).  `LoadDocument`
returns a remote document and an error; a `nil` remote document or a `nil`
`Document` payload is modelled as `.ok none`. -/
def DocLoader : Type := String → Except String (Option Value)

/-- One iteration step of the `loadContexts` loop (refresh.go lines
346-380), accumulating flattened `@context` entries in `acc`. -/
def loadLoop (loader : DocLoader) : List String → List Value → List Value
  | [], acc => acc
  | u :: rest, acc =>
    if u = "" then loadLoop loader rest acc
    else
      match loader u with
      | .error _ => loadLoop loader rest acc
      | .ok none => loadLoop loader rest acc
      | .ok (some (.obj fields)) =>
        match lookupVal fields "@context" with
        | none => loadLoop loader rest acc
        | some (.arr l) => loadLoop loader rest (acc ++ l)
        | some v => loadLoop loader rest (acc ++ [v])
      | .ok (some _) => loadLoop loader rest acc

/-- The document produced by `loadContexts` (refresh.go lines 332-382),
as a structured JSON value: for a nil/empty input it marshals a map
holding an explicit empty array, otherwise it marshals the accumulated
slice (a nil Go slice, left when nothing was appended, marshals to JSON
`null`). -/
def loadContextsDoc (loader : DocLoader) (contexts : List String) : Value :=
  if contexts.isEmpty then .obj [("@context", .arr [])]
  else
    match loadLoop loader contexts [] with
    | [] => .obj [("@context", Value.null)]
    | es => .obj [("@context", .arr es)]

/-- Embedding of `loadContexts` (refresh.go lines 332-382).  The only
error branch in the source fires when the service's document loader is
nil; the model's loader is a total function (and `Process` rejects a nil
loader before ever calling this), so the result is always `.ok`. -/
def loadContexts (loader : DocLoader) (contexts : List String) :
    Except String Value :=
  .ok (loadContextsDoc loader contexts)

/-- Modelled from the spec: the per-URI resolution of §4.4
ContextAggregator — a URI contributes its document's `@context` entries
(arrays flattened, scalars appended as-is) and contributes nothing on any
resolution failure, missing document, non-map shape, or missing
`@context` key. -/
def resolveEntries (loader : DocLoader) (uri : String) : List Value :=
  if uri = "" then []
  else
    match loader uri with
    | .error _ => []
    | .ok none => []
    | .ok (some (.obj fields)) =>
      match lookupVal fields "@context" with
      | none => []
      | some (.arr l) => l
      | some v => [v]
    | .ok (some _) => []

/-- Modelled from the spec: §4.4 ContextAggregator as a whole — empty
input yields an empty `@context` array, otherwise the flattened entries
of every URI that resolves, in input order. -/
def aggregateSpec (loader : DocLoader) (contexts : List String) : Value :=
  if contexts.isEmpty then .obj [("@context", .arr [])]
  else
    match contexts.flatMap (resolveEntries loader) with
    | [] => .obj [("@context", Value.null)]
    | es => .obj [("@context", .arr es)]

/-- The external oracles consulted by `isUpdatedIndexSlots`:
`jsonproc.Parser.ParseClaim` followed by `claim.GetMerklizedPosition`
(combined into `parsePosition`, whose error string carries the source's
wrapping), `jsonproc.Parser.GetFieldSlotIndex`, and the document loader
used by `loadContexts`. -/
structure ImpactEnv where
  parsePosition : Credential → Except String MerklizedPosition
  slotIndex : String → String → Value → Except String Int
  loader : DocLoader

/-- The check
`strings.Contains(err.Error(), "not specified in serialization info")`
applied to a slot-resolution error message. -/
def containsNotSpecified (msg : String) : Bool :=
  goContains msg "not specified in serialization info"

/-- One iteration of the field loop in the merklized-position-`None`
branch of `isUpdatedIndexSlots` (refresh.go lines 293-327), for the
entry `(k, v)` of the old subject.  `none` is Go `continue`; `some r`
is an early `return` with result `r`: reserved keys and a missing /
nil / non-string subject `type` or a field absent from the new values
are skipped; a slot-resolution error whose message contains
"not specified in serialization info" returns nil immediately, any
other resolution error is returned; a field in slot 2 or 3 whose value
changed returns nil immediately. -/
def slotItemStep (env : ImpactEnv) (ctxDoc : Value)
    (oldAll newValues : List (String × Value)) (k : String) (v : Value) :
    Option (GoRes Unit) :=
  if k = "type" ∨ k = "id" then none
  else
    match lookupVal oldAll "type" with
    | some (.str typeStr) =>
      (match env.slotIndex k typeStr ctxDoc with
      | .error msg =>
        if containsNotSpecified msg then some (.ok ())
        else some (.err msg)
      | .ok slotIdx =>
        match lookupVal newValues k with
        | none => none
        | some newValue =>
          if slotIdx = 2 ∨ slotIdx = 3 then
            match goValueEq v newValue with
            | none => some (.panic "comparing uncomparable types")
            | some eq => if eq then none else some (.ok ())
          else none)
    | _ => none

/-- The field loop of the merklized-position-`None` branch of
`isUpdatedIndexSlots` (refresh.go lines 293-327).  `oldAll` is the full
old-subject map (consulted for the `type` entry on every iteration),
and the last argument is the remaining iteration suffix.  `some r` is
an early `return` with result `r`; `none` falls through to the final
`errIndexSlotsNotUpdated`. -/
def indexSlotLoop (env : ImpactEnv) (ctxDoc : Value)
    (oldAll newValues : List (String × Value)) :
    List (String × Value) → Option (GoRes Unit)
  | [] => none
  | (k, v) :: rest =>
    match slotItemStep env ctxDoc oldAll newValues k v with
    | some r => some r
    | none => indexSlotLoop env ctxDoc oldAll newValues rest

/-- Embedding of `isUpdatedIndexSlots` (refresh.go lines 254-330).
Because the source mutates `credential.Context` (nil is replaced by an
empty slice before loading contexts), the model returns the updated
credential alongside the verdict: `.ok ()` is the `Updated` verdict
(`return nil`), `.err` the rejection or a propagated failure, and
`.panic` a runtime fault in the field comparison. -/
def isUpdatedIndexSlotsRun (env : ImpactEnv) (c : Credential)
    (oldValues newValues : List (String × Value)) :
    GoRes Unit × Credential :=
  match env.parsePosition c with
  | .error m => (.err m, c)
  | .ok .index => (.ok (), c)
  | .ok .value => (.err errIndexSlotsNotUpdated, c)
  | .ok .nonePos =>
    let c' : Credential :=
      if c.context = none then { c with context := some [] } else c
    match loadContexts env.loader (c'.context.getD []) with
    | .error m => (.err ("failed to load contexts: " ++ m), c')
    | .ok ctxDoc =>
      match indexSlotLoop env ctxDoc oldValues newValues oldValues with
      | some r => (r, c')
      | none => (.err errIndexSlotsNotUpdated, c')

/-- The context document the position-`None` analysis works with: the
aggregation of the credential's context list (a nil context list is
normalised to empty first, which aggregates identically). -/
def ctxDocFor (env : ImpactEnv) (c : Credential) : Value :=
  loadContextsDoc env.loader (c.context.getD [])

/-- Whether slot resolution (`GetFieldSlotIndex`) succeeds for field `k`
of subtype `t` against context document `d`. -/
def slotResolves (env : ImpactEnv) (k t : String) (d : Value) : Bool :=
  match env.slotIndex k t d with
  | .ok _ => true
  | .error _ => false

/-- The condition under which the claim (and spec §4.2) says a field
makes the refresh consequential: a non-reserved old-subject entry that
is present in the proposed new values, resolves to index-commitment
slot 2 or 3, and whose value changed (per the program's comparison,
which must then evaluate without fault). -/
def indexFieldChanged (env : ImpactEnv) (newValues : List (String × Value))
    (t : String) (d : Value) (kv : String × Value) : Prop :=
  kv.1 ≠ "id" ∧ kv.1 ≠ "type" ∧
  (∃ i, env.slotIndex kv.1 t d = .ok i ∧ (i = 2 ∨ i = 3)) ∧
  ∃ nv, lookupVal newValues kv.1 = some nv ∧ goValueEq kv.2 nv = some false

/-- Whether the comparison the loop would perform for an old-subject
entry is defined (does not panic): the entry is absent from the new
values, or the two values are not of the same uncomparable dynamic
type. -/
def comparisonDefined (newValues : List (String × Value))
    (kv : String × Value) : Bool :=
  match lookupVal newValues kv.1 with
  | none => true
  | some nv => (goValueEq kv.2 nv).isSome

/-- Modelled from the spec (§4.1): the subject has an `id` entry that is
a string and not blank after trimming whitespace. -/
def subjectIdOk (c : Credential) : Bool :=
  match c.credentialSubject with
  | none => false
  | some subj =>
    match lookupVal subj "id" with
    | some (.str s) => !(goTrimSpace s == "")
    | _ => false

/-- The update-provider collaborator resolved by
`providers.ProduceFlexibleHTTP`: its `Provide` method and its configured
`Settings.TimeExpiration` (a duration, in seconds here; Go's zero value
triggers the five-minute default). -/
structure Provider where
  provide : List (String × Value) → GoRes (Option (List (String × Value)))
  timeExpiration : Int

/-- The `credentialRequest` body submitted to
`IssuerService.CreateCredential` (refresh.go lines 43-51, 183-191). -/
structure CredReq where
  credentialSchema : String
  reqType : String
  credentialSubject : List (String × Value)
  expiration : Int
  refreshService : Option Value
  revNonce : ℕ
  displayMethod : Option Value

/-- The external collaborators and ambient state of one `Process` run:
the issuer service (`GetClaimByID`, `CreateCredential`), the
merklize-options `TypeIDFromContext` oracle, the provider factory, the
impact-analysis oracles, and the current time. -/
structure ProcEnv where
  getClaim : String → String → GoRes (Option Credential)
  typeIdFromContext : Credential → String → GoRes String
  produceProvider : String → GoRes Provider
  createCredential : String → CredReq → GoRes String
  impact : ImpactEnv
  now : Int

/-- Observable outcome of one `Process` run.  `cred`/`err` are the two
Go return values (`*verifiable.W3CCredential, error`); `panicked` records
that a collaborator panicked and the deferred `recover` fired;
`createCalled` that `CreateCredential` was invoked; `impactReached` /
`impactPassed` that `isUpdatedIndexSlots` returned a verdict (rather
than never being reached or panicking) / that the verdict was nil;
`sentReq` the request handed to `CreateCredential`; `memCred` the final
in-memory state of the fetched credential (the engine mutates it in
place through a pointer). -/
structure ProcResult where
  cred : Option Credential
  err : Option String
  panicked : Bool
  createCalled : Bool
  impactReached : Bool
  impactPassed : Bool
  sentReq : Option CredReq
  memCred : Option Credential

/-- Outcome of a run that returned an error before reaching the
index-impact check. -/
def stageErr (m : String) (mem : Option Credential) : ProcResult :=
  ⟨none, some m, false, false, false, false, none, mem⟩

/-- Outcome of a run in which a collaborator panicked before the
index-impact check: the recovered panic yields the zero return values. -/
def stagePanic (mem : Option Credential) : ProcResult :=
  ⟨none, none, true, false, false, false, none, mem⟩

/-- Outcome of a run aborted by a non-`Updated` impact verdict. -/
def impactErr (m : String) (mem : Option Credential) : ProcResult :=
  ⟨none, some m, false, false, true, false, none, mem⟩

/-- Outcome of a run that failed between the impact check and the
reissuance request. -/
def postImpactErr (m : String) (mem : Option Credential) : ProcResult :=
  ⟨none, some m, false, false, true, true, none, mem⟩

/-- Outcome of a run whose reissuance request or refetch panicked. -/
def reissuePanic (req : CredReq) (mem : Option Credential) : ProcResult :=
  ⟨none, none, true, true, true, true, some req, mem⟩

/-- Outcome of a run whose reissuance request or refetch returned an
error. -/
def reissueErr (m : String) (req : CredReq) (mem : Option Credential) :
    ProcResult :=
  ⟨none, some m, false, true, true, true, some req, mem⟩

/-- Outcome of a completed run: the refetched credential (or nil) is
returned with a nil error. -/
def doneRes (copt : Option Credential) (req : CredReq)
    (mem : Option Credential) : ProcResult :=
  ⟨copt, none, false, true, true, true, some req, mem⟩

/-- The `credentialRequest` built by `Process` (refresh.go lines
183-191): schema id, subject subtype, merged subject, new expiration
`now + validity`, pass-through refresh/display metadata and the
extracted revocation nonce. -/
def buildReq (subjectType : String) (texp now : Int) (revNonce : ℕ)
    (merged : List (String × Value)) (c2 : Credential) : CredReq :=
  ⟨c2.credentialSchemaID, subjectType, merged, now + texp,
    c2.refreshService, revNonce, c2.displayMethod⟩

/-- The last stage of `Process` (refresh.go lines 193-198): submit the
request via `CreateCredential`, then refetch the new credential by the
returned id and return that call's results verbatim. -/
def submitAndRefetch (env : ProcEnv) (issuer : String) (req : CredReq)
    (c2 : Credential) : ProcResult :=
  match env.createCredential issuer req with
  | .panic _ => reissuePanic req (some c2)
  | .err m => reissueErr m req (some c2)
  | .ok refreshedID =>
    match env.getClaim issuer refreshedID with
    | .panic _ => reissuePanic req (some c2)
    | .err m => reissueErr m req (some c2)
    | .ok copt => doneRes copt req (some c2)

/-- `Process` after an `Updated` impact verdict (refresh.go lines
162-198): merge the provider's fields into the subject in place,
extract the revocation nonce, require a schema id, build the request
and reissue.  `c'` is the in-memory credential as left by the impact
check. -/
def afterImpactOk (env : ProcEnv) (issuer subjectType : String) (texp : Int)
    (updatedFields : List (String × Value)) (c' : Credential) : ProcResult :=
  let merged := mergeFields (c'.credentialSubject.getD []) updatedFields
  let c2 := { c' with credentialSubject := some merged }
  match extractRevocationNonce c2 with
  | .error e => postImpactErr e (some c2)
  | .ok revNonce =>
    if c2.credentialSchemaID = "" then
      postImpactErr "credential schema ID is empty" (some c2)
    else
      submitAndRefetch env issuer
        (buildReq subjectType texp env.now revNonce merged c2) c2

/-- `Process` from the index-impact check's result onward (refresh.go
lines 158-198): a panic inside the check unwinds to the recover
boundary, an error verdict aborts with the wrapped rejection, and a nil
verdict runs the reissuance tail. -/
def afterImpact (env : ProcEnv) (issuer subjectType : String) (texp : Int)
    (updatedFields : List (String × Value))
    (impactRes : GoRes Unit × Credential) : ProcResult :=
  match impactRes.1 with
  | .panic _ => stagePanic (some impactRes.2)
  | .err e =>
    impactErr ("not updatable: index update fail: " ++ e) (some impactRes.2)
  | .ok _ => afterImpactOk env issuer subjectType texp updatedFields impactRes.2

/-- Embedding of `RefreshService.Process` (refresh.go lines 53-199).
The deferred `recover` at the top only logs; with unnamed return values
a recovered panic makes the function return the zero values — both
`cred` and `err` nil.  The nil-service guards at the top are vacuous in
the model (the environment is total).  Error strings follow the source's
wrapping loosely; the claims only distinguish presence of an error. -/
def processRun (env : ProcEnv) (issuer owner id : String) : ProcResult :=
  match env.getClaim issuer id with
  | .panic _ => stagePanic none
  | .err m => stageErr m none
  | .ok none => stageErr "GetClaimByID returned nil credential" none
  | .ok (some c) =>
    if c.issuer = "" then stageErr "credential issuer is empty" (some c)
    else if c.id = "" then stageErr "credential ID is empty" (some c)
    else if c.typeList.isNone then stageErr "credential type is nil" (some c)
    else if c.expiration.isNone then
      stageErr "credential expiration is nil" (some c)
    else if c.credentialSubject.isNone then
      stageErr "credential subject is nil" (some c)
    else
      match isUpdatable env.now c with
      | .error e => stageErr ("not updatable: " ++ e) (some c)
      | .ok () =>
        match checkOwnerShip c owner with
        | .error e => stageErr ("not updatable: " ++ e) (some c)
        | .ok () =>
          match lookupVal (c.credentialSubject.getD []) "type" with
          | none => stageErr "type field missing in credentialSubject" (some c)
          | some .null =>
            stageErr "type field is nil in credentialSubject" (some c)
          | some (.str subjectType) =>
            if subjectType = "" then
              stageErr "invalid or missing type in credentialSubject" (some c)
            else
              match env.typeIdFromContext c subjectType with
              | .panic _ => stagePanic (some c)
              | .err m => stageErr m (some c)
              | .ok credType =>
                match env.produceProvider credType with
                | .panic _ => stagePanic (some c)
                | .err m =>
                  stageErr ("not updatable: no provider: " ++ m) (some c)
                | .ok provider =>
                  match provider.provide (c.credentialSubject.getD []) with
                  | .panic _ => stagePanic (some c)
                  | .err m => stageErr m (some c)
                  | .ok updOpt =>
                    afterImpact env issuer subjectType
                      (if provider.timeExpiration = 0 then 300
                       else provider.timeExpiration)
                      (updOpt.getD [])
                      (isUpdatedIndexSlotsRun env.impact c
                        (c.credentialSubject.getD []) (updOpt.getD []))
          | some _ =>
            stageErr "invalid or missing type in credentialSubject" (some c)

/-- The reissuance-ordering property of one run: `CreateCredential` was
invoked only if the impact check passed; a reached-but-failed impact
check implies an error outcome; and a run that never reached the impact
check and did not panic ended with an error and without invoking
`CreateCredential`. -/
def reissueGuard (r : ProcResult) : Bool :=
  ((!r.createCalled) || r.impactPassed) &&
  (r.impactPassed || (!r.impactReached) || r.err.isSome) &&
  (r.impactReached || r.panicked || (r.err.isSome && (!r.createCalled)))

/-! Concrete fixtures: an expired, well-formed credential and
environments exercising the individual pipeline branches. -/

/-- An expired, structurally valid credential owned by `owner1`. -/
def cred1 : Credential :=
  { id := "cred-1", issuer := "did:iss", typeList := some ["VerifiableCredential"],
    expiration := some 50,
    credentialSubject := some [("id", .str "owner1"), ("type", .str "Ex")],
    credentialStatus := .obj [("revocationNonce", .num (mkRat 5 1))],
    credentialSchemaID := "sch", context := some [],
    refreshService := none, displayMethod := none }

/-- `cred1` with a nil JSON-LD context list. -/
def credNilCtx : Credential := { cred1 with context := none }

/-- `cred1` with a negative fractional `revocationNonce`. -/
def credNegNonce : Credential :=
  { cred1 with credentialStatus := .obj [("revocationNonce", .num (mkRat (-3) 2))] }

/-- `cred1` with revocation nonce −(2^63 + 2048) = −(2^63 + 2^11), a
float64-representable negative value of magnitude above 2^63. -/
def credHugeNegNonce : Credential :=
  { cred1 with
    credentialStatus := .obj [("revocationNonce", .num (mkRat (-(2 ^ 63 + 2048)) 1))] }

/-- A document loader that fails on every URI. -/
def loaderErr : DocLoader := fun _ => .error "load failed"

/-- Impact oracles: merklized position `Index`. -/
def impactIndexEnv : ImpactEnv :=
  { parsePosition := fun _ => .ok .index,
    slotIndex := fun _ _ _ => .ok 0,
    loader := loaderErr }

/-- Impact oracles: merklized position `Value`. -/
def impactValueEnv : ImpactEnv :=
  { impactIndexEnv with parsePosition := fun _ => .ok .value }

/-- Impact oracles: merklized position `None`, every field in slot 2. -/
def impactSlot2Env : ImpactEnv :=
  { parsePosition := fun _ => .ok .nonePos,
    slotIndex := fun _ _ _ => .ok 2,
    loader := loaderErr }

/-- Impact oracles: position `None`, slot resolution reporting the field
is not specified in the serialization info. -/
def impactNotSpecEnv : ImpactEnv :=
  { impactSlot2Env with
    slotIndex := fun k _ _ =>
      .error (k ++ " not specified in serialization info") }

/-- Impact oracles: position `None`, slot resolution failing for another
reason. -/
def impactOtherErrEnv : ImpactEnv :=
  { impactSlot2Env with slotIndex := fun _ _ _ => .error "schema fetch failed" }

/-- A base pipeline environment around `cred1` in which every
collaborator succeeds; the provider proposes a `birthday` value.  (Used
as a base for the other environments; by itself the position-`None`
impact check rejects the run, since `cred1`'s subject has no
non-reserved fields.) -/
def envHappy : ProcEnv :=
  { getClaim := fun _ _ => .ok (some cred1),
    typeIdFromContext := fun _ _ => .ok "ExType",
    produceProvider := fun _ =>
      .ok ⟨fun _ => .ok (some [("birthday", .num (mkRat 2 1))]), 60⟩,
    createCredential := fun _ _ => .ok "cred-2",
    impact := impactSlot2Env,
    now := 100 }

/-- `envHappy` with a provider whose invocation panics. -/
def envProvPanic : ProcEnv :=
  { envHappy with produceProvider := fun _ => .ok ⟨fun _ => .panic "boom", 60⟩ }

/-- `envHappy` with a provider that proposes a changed subject `id`, and
a merklized position (`Index`) under which the impact check passes. -/
def envIdChange : ProcEnv :=
  { envHappy with
    produceProvider := fun _ => .ok ⟨fun _ => .ok (some [("id", .str "bob")]), 60⟩,
    impact := impactIndexEnv }

/-- `envHappy` fetching the nil-context credential, with merklized
position `None` (the branch that normalises the nil context). -/
def envNilCtx : ProcEnv :=
  { envHappy with
    getClaim := fun _ _ => .ok (some credNilCtx),
    produceProvider := fun _ => .ok ⟨fun _ => .ok none, 60⟩ }

/-! Helper lemmas. -/

/-- Updating a map at one key leaves lookups of any other key unchanged. -/
lemma lookup_insertVal_ne (m : List (String × Value)) (k k' : String)
    (v : Value) (h : k' ≠ k) :
    lookupVal (insertVal m k' v) k = lookupVal m k := by
  induction m with
  | nil => simp [insertVal, lookupVal, h]
  | cons kv rest ih =>
    obtain ⟨k0, v0⟩ := kv
    by_cases h0 : k0 = k'
    · subst h0; simp [insertVal, lookupVal, h]
    · simp only [insertVal, if_neg h0, lookupVal]
      by_cases h1 : k0 = k
      · simp [h1]
      · simp [h1, ih]

/-- Merging a field map that has no entry for a key leaves that key's
lookup unchanged. -/
lemma mergeFields_lookup_of_absent :
    ∀ (upd subj : List (String × Value)), lookupVal upd "id" = none →
      lookupVal (mergeFields subj upd) "id" = lookupVal subj "id" := by
  intro upd
  induction upd with
  | nil => intro subj _; simp [mergeFields]
  | cons kv rest ih =>
    obtain ⟨k, v⟩ := kv
    intro subj h
    simp only [lookupVal] at h
    by_cases hk : k = "id"
    · simp [hk] at h
    · rw [if_neg hk] at h
      simp only [mergeFields, List.foldl_cons] at ih ⊢
      rw [ih (insertVal subj k v) h]
      exact lookup_insertVal_ne subj "id" k v hk

/-- The accumulator form of the `loadContexts` loop equals the flat-map
of the spec's per-URI resolution. -/
lemma loadLoop_eq (loader : DocLoader) :
    ∀ (ctxs : List String) (acc : List Value),
      loadLoop loader ctxs acc = acc ++ ctxs.flatMap (resolveEntries loader) := by
  intro ctxs
  induction ctxs with
  | nil => intro acc; simp [loadLoop]
  | cons u rest ih =>
    intro acc
    simp only [loadLoop, List.flatMap_cons]
    by_cases hu : u = ""
    · rw [if_pos hu]; simp [resolveEntries, hu, ih]
    · rw [if_neg hu]
      cases hl : loader u with
      | error m => simp [resolveEntries, hu, hl, ih]
      | ok od =>
        cases od with
        | none => simp [resolveEntries, hu, hl, ih]
        | some d =>
          cases d with
          | obj fields =>
            cases hc : lookupVal fields "@context" with
            | none => simp [resolveEntries, hu, hl, hc, ih]
            | some lv =>
              cases lv <;> simp [resolveEntries, hu, hl, hc, ih]
          | str s => simp [resolveEntries, hu, hl, ih]
          | num q => simp [resolveEntries, hu, hl, ih]
          | bool b => simp [resolveEntries, hu, hl, ih]
          | null => simp [resolveEntries, hu, hl, ih]
          | arr xs => simp [resolveEntries, hu, hl, ih]

/-- Normalising a nil context list to empty does not change the list the
aggregator works on. -/
lemma ctx_norm (c : Credential) :
    ((if c.context = none then { c with context := some [] } else c).context.getD [])
      = c.context.getD [] := by
  cases hc : c.context <;> simp [hc]

/-- A loop prefix that falls through does not affect the rest of the
iteration. -/
lemma indexSlotLoop_append (env : ImpactEnv) (d : Value)
    (oldAll newV : List (String × Value)) :
    ∀ pre l, indexSlotLoop env d oldAll newV pre = none →
      indexSlotLoop env d oldAll newV (pre ++ l) =
        indexSlotLoop env d oldAll newV l := by
  intro pre
  induction pre with
  | nil => intro l _; simp
  | cons kv rest ih =>
    intro l h
    obtain ⟨k, v⟩ := kv
    simp only [indexSlotLoop, List.cons_append] at h ⊢
    cases hs : slotItemStep env d oldAll newV k v with
    | some r => simp [hs] at h
    | none => simp only [hs] at h ⊢; exact ih l h

/-- If slot resolution succeeds for a field and the comparison the loop
would perform is defined, the step early-returns exactly the `Updated`
verdict, and only for a consequential field. -/
lemma slotItemStep_eq_some (env : ImpactEnv) (d : Value)
    (oldAll newV : List (String × Value)) (t : String) (k : String) (v : Value)
    (r : GoRes Unit)
    (htype : lookupVal oldAll "type" = some (.str t))
    (hres : k ≠ "id" → k ≠ "type" → slotResolves env k t d = true)
    (hcmp : k ≠ "id" → k ≠ "type" → comparisonDefined newV (k, v) = true)
    (hsome : slotItemStep env d oldAll newV k v = some r) :
    r = .ok () ∧ indexFieldChanged env newV t d (k, v) := by
  by_cases hk : k = "type" ∨ k = "id"
  · simp [slotItemStep, hk] at hsome
  · have hk' := not_or.mp hk
    have hresv := hres hk'.2 hk'.1
    have hcmpv := hcmp hk'.2 hk'.1
    simp only [slotItemStep, if_neg hk, htype] at hsome
    cases hsl : env.slotIndex k t d with
    | error m => simp [slotResolves, hsl] at hresv
    | ok i =>
      simp only [hsl] at hsome
      cases hnv : lookupVal newV k with
      | none => simp [hnv] at hsome
      | some nv =>
        simp only [hnv] at hsome
        by_cases hor : i = 2 ∨ i = 3
        · rw [if_pos hor] at hsome
          cases hq : goValueEq v nv with
          | none => simp [comparisonDefined, hnv, hq] at hcmpv
          | some b =>
            simp only [hq] at hsome
            cases b with
            | true => simp at hsome
            | false =>
              simp only [if_neg (by simp : ¬(false = true)),
                Option.some.injEq] at hsome
              exact ⟨hsome.symm, hk'.2, hk'.1, ⟨i, hsl, hor⟩, nv, hnv, hq⟩
        · rw [if_neg hor] at hsome
          cases hsome

/-- A consequential field's loop step early-returns the `Updated`
verdict. -/
lemma slotItemStep_of_changed (env : ImpactEnv) (d : Value)
    (oldAll newV : List (String × Value)) (t : String) (k : String) (v : Value)
    (htype : lookupVal oldAll "type" = some (.str t))
    (hch : indexFieldChanged env newV t d (k, v)) :
    slotItemStep env d oldAll newV k v = some (.ok ()) := by
  obtain ⟨h1, h2, ⟨i, hi, hor⟩, nv, hnv, hne⟩ := hch
  have hk : ¬(k = "type" ∨ k = "id") := not_or.mpr ⟨h2, h1⟩
  simp only [slotItemStep, if_neg hk, htype, hi, hnv]
  rw [if_pos hor, hne]
  rfl

/-- When every non-reserved field resolves, every comparison is
defined, and some field is consequential, the loop returns the
`Updated` verdict. -/
lemma indexSlotLoop_of_changed (env : ImpactEnv) (d : Value)
    (oldAll newV : List (String × Value)) (t : String)
    (htype : lookupVal oldAll "type" = some (.str t)) :
    ∀ l, (∀ kv ∈ l, kv.1 ≠ "id" → kv.1 ≠ "type" →
            slotResolves env kv.1 t d = true) →
      (∀ kv ∈ l, kv.1 ≠ "id" → kv.1 ≠ "type" →
            comparisonDefined newV kv = true) →
      (∃ kv ∈ l, indexFieldChanged env newV t d kv) →
      indexSlotLoop env d oldAll newV l = some (.ok ()) := by
  intro l
  induction l with
  | nil =>
    intro _ _ hex
    obtain ⟨kv, hmem, _⟩ := hex
    simp at hmem
  | cons kv0 rest ih =>
    intro hres hcmp hex
    obtain ⟨k, v⟩ := kv0
    simp only [indexSlotLoop]
    cases hs : slotItemStep env d oldAll newV k v with
    | some r =>
      have hr := slotItemStep_eq_some env d oldAll newV t k v r htype
        (fun h1 h2 => hres (k, v) (List.mem_cons_self _ _) h1 h2)
        (fun h1 h2 => hcmp (k, v) (List.mem_cons_self _ _) h1 h2) hs
      rw [hr.1]
    | none =>
      obtain ⟨kv, hmem, hch⟩ := hex
      rcases List.mem_cons.mp hmem with heq | hmem'
      · rw [heq] at hch
        rw [slotItemStep_of_changed env d oldAll newV t k v htype hch] at hs
        cases hs
      · exact ih (fun kv h => hres kv (List.mem_cons_of_mem _ h))
          (fun kv h => hcmp kv (List.mem_cons_of_mem _ h)) ⟨kv, hmem', hch⟩

/-- When every non-reserved field resolves, every comparison is
defined, and no field is consequential, the loop falls through. -/
lemma indexSlotLoop_of_unchanged (env : ImpactEnv) (d : Value)
    (oldAll newV : List (String × Value)) (t : String)
    (htype : lookupVal oldAll "type" = some (.str t)) :
    ∀ l, (∀ kv ∈ l, kv.1 ≠ "id" → kv.1 ≠ "type" →
            slotResolves env kv.1 t d = true) →
      (∀ kv ∈ l, kv.1 ≠ "id" → kv.1 ≠ "type" →
            comparisonDefined newV kv = true) →
      (∀ kv ∈ l, ¬ indexFieldChanged env newV t d kv) →
      indexSlotLoop env d oldAll newV l = none := by
  intro l
  induction l with
  | nil => intro _ _ _; simp [indexSlotLoop]
  | cons kv0 rest ih =>
    intro hres hcmp hno
    obtain ⟨k, v⟩ := kv0
    simp only [indexSlotLoop]
    cases hs : slotItemStep env d oldAll newV k v with
    | some r =>
      have hr := slotItemStep_eq_some env d oldAll newV t k v r htype
        (fun h1 h2 => hres (k, v) (List.mem_cons_self _ _) h1 h2)
        (fun h1 h2 => hcmp (k, v) (List.mem_cons_self _ _) h1 h2) hs
      exact absurd hr.2 (hno (k, v) (List.mem_cons_self _ _))
    | none =>
      exact ih (fun kv h => hres kv (List.mem_cons_of_mem _ h))
        (fun kv h => hcmp kv (List.mem_cons_of_mem _ h))
        (fun kv h => hno kv (List.mem_cons_of_mem _ h))

/-- The reissuance tail always reports a reached-and-passed impact
check with `CreateCredential` invoked. -/
lemma reissueGuard_submitAndRefetch (env : ProcEnv) (issuer : String)
    (req : CredReq) (c2 : Credential) :
    reissueGuard (submitAndRefetch env issuer req c2) = true := by
  unfold submitAndRefetch
  repeat' split
  all_goals rfl

/-- The post-impact stage satisfies the reissuance-ordering property. -/
lemma reissueGuard_afterImpactOk (env : ProcEnv) (issuer subjectType : String)
    (texp : Int) (updatedFields : List (String × Value)) (c' : Credential) :
    reissueGuard (afterImpactOk env issuer subjectType texp updatedFields c') =
      true := by
  unfold afterImpactOk
  dsimp only
  repeat' split
  all_goals first
    | rfl
    | exact reissueGuard_submitAndRefetch env issuer _ _

/-- The impact-check stage satisfies the reissuance-ordering property. -/
lemma reissueGuard_afterImpact (env : ProcEnv) (issuer subjectType : String)
    (texp : Int) (updatedFields : List (String × Value))
    (impactRes : GoRes Unit × Credential) :
    reissueGuard (afterImpact env issuer subjectType texp updatedFields impactRes) =
      true := by
  unfold afterImpact
  repeat' split
  all_goals first
    | rfl
    | exact reissueGuard_afterImpactOk env issuer subjectType texp updatedFields _

/-- The impact check leaves every credential field except the context
list unchanged, and changes the context list only by replacing nil with
an empty list. -/
lemma impactRun_frame (env : ImpactEnv) (c : Credential)
    (o n : List (String × Value)) :
    ((isUpdatedIndexSlotsRun env c o n).2.id = c.id ∧
     (isUpdatedIndexSlotsRun env c o n).2.issuer = c.issuer ∧
     (isUpdatedIndexSlotsRun env c o n).2.typeList = c.typeList ∧
     (isUpdatedIndexSlotsRun env c o n).2.expiration = c.expiration ∧
     (isUpdatedIndexSlotsRun env c o n).2.credentialStatus = c.credentialStatus ∧
     (isUpdatedIndexSlotsRun env c o n).2.credentialSchemaID = c.credentialSchemaID ∧
     (isUpdatedIndexSlotsRun env c o n).2.refreshService = c.refreshService ∧
     (isUpdatedIndexSlotsRun env c o n).2.displayMethod = c.displayMethod) ∧
    ((isUpdatedIndexSlotsRun env c o n).2.context = c.context ∨
      (c.context = none ∧ (isUpdatedIndexSlotsRun env c o n).2.context = some [])) := by
  unfold isUpdatedIndexSlotsRun
  cases hp : env.parsePosition c with
  | error m => simp [hp]
  | ok p =>
    cases p with
    | index => simp [hp]
    | value => simp [hp]
    | nonePos =>
      simp only [hp]
      dsimp only [loadContexts]
      by_cases hc : c.context = none
      · rw [if_pos hc]; split <;> simp [hc]
      · rw [if_neg hc]; split <;> simp

/-- The reissuance tail leaves the in-memory credential as merged. -/
lemma submitAndRefetch_memCred (env : ProcEnv) (issuer : String)
    (req : CredReq) (c2 : Credential) :
    (submitAndRefetch env issuer req c2).memCred = some c2 := by
  unfold submitAndRefetch
  repeat' split
  all_goals rfl

/-- After an `Updated` verdict, the in-memory credential is the impact
check's credential with the provider's fields merged into its subject. -/
lemma afterImpactOk_memCred (env : ProcEnv) (issuer subjectType : String)
    (texp : Int) (uf : List (String × Value)) (c' : Credential) :
    (afterImpactOk env issuer subjectType texp uf c').memCred =
      some { c' with
             credentialSubject := some (mergeFields (c'.credentialSubject.getD []) uf) } := by
  unfold afterImpactOk
  dsimp only
  repeat' split
  all_goals first
    | rfl
    | exact submitAndRefetch_memCred env issuer _ _

/-- From the impact check onward, the in-memory credential is the impact
check's credential, with the subject merge applied when the verdict was
`Updated`. -/
lemma afterImpact_memCred (env : ProcEnv) (issuer subjectType : String)
    (texp : Int) (uf : List (String × Value))
    (ir : GoRes Unit × Credential) :
    (afterImpact env issuer subjectType texp uf ir).memCred = some ir.2 ∨
    (afterImpact env issuer subjectType texp uf ir).memCred =
      some { ir.2 with
             credentialSubject := some (mergeFields (ir.2.credentialSubject.getD []) uf) } := by
  unfold afterImpact
  split
  · exact Or.inl rfl
  · exact Or.inl rfl
  · exact Or.inr (afterImpactOk_memCred env issuer subjectType texp uf _)

/-- Combined frame fact for the pipeline from the impact check onward:
whatever in-memory credential it leaves behind agrees with the fetched
credential on every field but the subject, except that a nil context
may have been replaced by an empty list. -/
lemma afterImpact_frame (env : ProcEnv) (issuer subjectType : String)
    (texp : Int) (uf : List (String × Value)) (c mc : Credential)
    (o n : List (String × Value))
    (hmem : (afterImpact env issuer subjectType texp uf
        (isUpdatedIndexSlotsRun env.impact c o n)).memCred = some mc) :
    (mc.id = c.id ∧ mc.issuer = c.issuer ∧ mc.typeList = c.typeList ∧
     mc.expiration = c.expiration ∧ mc.credentialStatus = c.credentialStatus ∧
     mc.credentialSchemaID = c.credentialSchemaID ∧
     mc.refreshService = c.refreshService ∧ mc.displayMethod = c.displayMethod) ∧
    (mc.context = c.context ∨ (c.context = none ∧ mc.context = some [])) := by
  rcases afterImpact_memCred env issuer subjectType texp uf
    (isUpdatedIndexSlotsRun env.impact c o n) with h | h
  · rw [h] at hmem
    injection hmem with hmem
    subst hmem
    exact impactRun_frame env.impact c o n
  · rw [h] at hmem
    injection hmem with hmem
    subst hmem
    exact impactRun_frame env.impact c o n

/-! Claim theorems. -/

/-- C1: refuted on the code (code bug).  The claim says a panic anywhere
in the pipeline is converted into a failure outcome, never both return
values nil.  The deferred `recover` in `Process` only logs, and the
return values are unnamed, so a recovered panic returns the zero values:
in the run below the provider invocation panics on an otherwise valid
expired credential and `Process` returns nil credential AND nil error —
a success outcome with no credential. -/
theorem c1_panic_returns_nil_nil :
    (processRun envProvPanic "did:iss" "owner1" "cred-1").cred = none ∧
    (processRun envProvPanic "did:iss" "owner1" "cred-1").err = none ∧
    (processRun envProvPanic "did:iss" "owner1" "cred-1").panicked = true :=
  ⟨rfl, rfl, rfl⟩

/-- C2, counterexample: the merge step overlays every key the provider
returns, including `id`.  In this run the provider returns
`id = "bob"`; the merged subject sent to the issuing authority carries
`id = "bob"` while the original subject had `id = "owner1"`. -/
theorem c2_counterexample_id_overwritten :
    (processRun envIdChange "did:iss" "owner1" "cred-1").sentReq.map
      (fun r => lookupVal r.credentialSubject "id") = some (some (.str "bob")) ∧
    lookupVal (cred1.credentialSubject.getD []) "id" = some (.str "owner1") ∧
    Value.str "bob" ≠ Value.str "owner1" :=
  ⟨rfl, rfl, by intro h; injection h with h'; exact absurd h' (by decide)⟩

/-- C2, amended: for every credential subject and every map of updated
fields that contains no `id` key, the subject produced by the merge step
has the same value under `id` as the original subject. -/
theorem c2_merge_preserves_id (subj upd : List (String × Value))
    (h : lookupVal upd "id" = none) :
    lookupVal (mergeFields subj upd) "id" = lookupVal subj "id" :=
  mergeFields_lookup_of_absent upd subj h

/-- Witness for C2's amended theorem at a concrete subject and update
map without an `id` key. -/
theorem c2_merge_preserves_id_witness :
    lookupVal [("x", Value.str "n")] "id" = none ∧
    lookupVal (mergeFields [("id", Value.str "owner1"), ("type", Value.str "Ex")]
        [("x", Value.str "n")]) "id" =
      lookupVal [("id", Value.str "owner1"), ("type", Value.str "Ex")] "id" :=
  ⟨rfl, c2_merge_preserves_id _ _ rfl⟩

/-- C3: when the parsed claim's merklized root position is `Index`, the
analysis returns the `Updated` verdict (nil) for every old/new subject
pair; when it is `Value`, it returns the `errIndexSlotsNotUpdated`
rejection for every old/new subject pair. -/
theorem c3_index_value_positions (env : ImpactEnv) (c : Credential)
    (oldV newV : List (String × Value)) :
    (env.parsePosition c = .ok .index →
      (isUpdatedIndexSlotsRun env c oldV newV).1 = .ok ()) ∧
    (env.parsePosition c = .ok .value →
      (isUpdatedIndexSlotsRun env c oldV newV).1 = .err errIndexSlotsNotUpdated) := by
  constructor <;> intro h <;> simp [isUpdatedIndexSlotsRun, h]

/-- Witness for C3 at concrete environments: one claim parsing to
`Index` (empty diff included), one to `Value` (with a changed field). -/
theorem c3_index_value_witness :
    (isUpdatedIndexSlotsRun impactIndexEnv cred1
      (cred1.credentialSubject.getD []) []).1 = .ok () ∧
    (isUpdatedIndexSlotsRun impactValueEnv cred1
      (cred1.credentialSubject.getD [])
      [("birthday", .num (mkRat 2 1))]).1 = .err errIndexSlotsNotUpdated :=
  ⟨(c3_index_value_positions impactIndexEnv cred1 _ _).1 rfl,
   (c3_index_value_positions impactValueEnv cred1 _ _).2 rfl⟩

/-- C4, counterexample: the claim's verdicts do not hold for all
old/new pairs, because the value comparison at refresh.go:324 is Go
interface equality, which panics when both operands are of the same
uncomparable dynamic type.  Here the field `tags` resolves to slot 2
and its old value `[1]` and new value `[2]` are JSON arrays (Go
slices): the analysis panics instead of returning either the `Updated`
verdict or the `NotUpdated` rejection. -/
theorem c4_counterexample_uncomparable_panic :
    (isUpdatedIndexSlotsRun impactSlot2Env cred1
      [("id", .str "owner1"), ("type", .str "Ex"),
        ("tags", .arr [.num (mkRat 1 1)])]
      [("tags", .arr [.num (mkRat 2 1)])]).1 =
        GoRes.panic "comparing uncomparable types" ∧
    (GoRes.panic "comparing uncomparable types" : GoRes Unit) ≠ .ok () ∧
    (GoRes.panic "comparing uncomparable types" : GoRes Unit) ≠
      .err errIndexSlotsNotUpdated :=
  ⟨rfl, by decide, by decide⟩

/-- C4, amended: for a credential parsing to merklized position `None`
whose non-reserved old-subject fields all resolve to a slot index, and
whose field comparisons are all defined (old and proposed values never
of the same uncomparable dynamic type): if some such field is present
in the new values, resolves to slot 2 or 3, and changed value, the
analysis returns the `Updated` verdict; if no such field exists, it
returns the `errIndexSlotsNotUpdated` rejection. -/
theorem c4_amended_none_position_verdicts (env : ImpactEnv) (c : Credential)
    (oldV newV : List (String × Value)) (t : String)
    (hpos : env.parsePosition c = .ok .nonePos)
    (htype : lookupVal oldV "type" = some (.str t))
    (hres : ∀ kv ∈ oldV, kv.1 ≠ "id" → kv.1 ≠ "type" →
      slotResolves env kv.1 t (ctxDocFor env c) = true)
    (hcmp : ∀ kv ∈ oldV, kv.1 ≠ "id" → kv.1 ≠ "type" →
      comparisonDefined newV kv = true) :
    ((∃ kv ∈ oldV, indexFieldChanged env newV t (ctxDocFor env c) kv) →
      (isUpdatedIndexSlotsRun env c oldV newV).1 = .ok ()) ∧
    ((∀ kv ∈ oldV, ¬ indexFieldChanged env newV t (ctxDocFor env c) kv) →
      (isUpdatedIndexSlotsRun env c oldV newV).1 = .err errIndexSlotsNotUpdated) := by
  constructor
  · intro hex
    have hloop := indexSlotLoop_of_changed env (ctxDocFor env c) oldV newV t
      htype oldV hres hcmp hex
    unfold ctxDocFor at hloop
    simp [isUpdatedIndexSlotsRun, hpos, loadContexts, ctx_norm, hloop]
  · intro hno
    have hloop := indexSlotLoop_of_unchanged env (ctxDocFor env c) oldV newV t
      htype oldV hres hcmp hno
    unfold ctxDocFor at hloop
    simp [isUpdatedIndexSlotsRun, hpos, loadContexts, ctx_norm, hloop]

/-- Witness for C4's amended theorem: with every field in slot 2 and
scalar values, a changed `birthday` yields `Updated`, and an empty
proposed-update map yields the `errIndexSlotsNotUpdated` rejection. -/
theorem c4_amended_witness :
    (isUpdatedIndexSlotsRun impactSlot2Env cred1
      [("id", .str "owner1"), ("type", .str "Ex"), ("birthday", .num (mkRat 1 1))]
      [("birthday", .num (mkRat 2 1))]).1 = .ok () ∧
    (isUpdatedIndexSlotsRun impactSlot2Env cred1
      [("id", .str "owner1"), ("type", .str "Ex"), ("birthday", .num (mkRat 1 1))]
      []).1 = .err errIndexSlotsNotUpdated := by
  constructor
  · exact (c4_amended_none_position_verdicts impactSlot2Env cred1
      [("id", .str "owner1"), ("type", .str "Ex"), ("birthday", .num (mkRat 1 1))]
      [("birthday", .num (mkRat 2 1))] "Ex" rfl rfl
      (by decide) (by decide)).1
      ⟨("birthday", .num (mkRat 1 1)),
        List.mem_cons_of_mem _ (List.mem_cons_of_mem _ (List.mem_cons_self _ _)),
        by decide, by decide, ⟨2, rfl, Or.inl rfl⟩,
        ⟨.num (mkRat 2 1), rfl, by decide⟩⟩
  · exact (c4_amended_none_position_verdicts impactSlot2Env cred1
      [("id", .str "owner1"), ("type", .str "Ex"), ("birthday", .num (mkRat 1 1))]
      [] "Ex" rfl rfl
      (by decide) (by decide)).2
      (fun kv _ hch => by
        obtain ⟨_, _, _, nv, hnv, _⟩ := hch
        simp [lookupVal] at hnv)

/-- C5: in the position-`None` analysis, once the loop reaches a
non-reserved field whose slot resolution fails, the analysis
short-circuits: a "not specified in serialization info" failure yields
the `Updated` verdict immediately, any other failure is propagated as
the analysis result. -/
theorem c5_resolution_failure_short_circuit (env : ImpactEnv) (c : Credential)
    (oldV newV pre rest : List (String × Value)) (k : String) (v : Value)
    (t msg : String)
    (hpos : env.parsePosition c = .ok .nonePos)
    (hold : oldV = pre ++ (k, v) :: rest)
    (hpre : indexSlotLoop env (ctxDocFor env c) oldV newV pre = none)
    (hk1 : k ≠ "id") (hk2 : k ≠ "type")
    (htype : lookupVal oldV "type" = some (.str t))
    (hslot : env.slotIndex k t (ctxDocFor env c) = .error msg) :
    (containsNotSpecified msg = true →
      (isUpdatedIndexSlotsRun env c oldV newV).1 = .ok ()) ∧
    (containsNotSpecified msg = false →
      (isUpdatedIndexSlotsRun env c oldV newV).1 = .err msg) := by
  have hk : ¬(k = "type" ∨ k = "id") := not_or.mpr ⟨hk2, hk1⟩
  have hstep : slotItemStep env (ctxDocFor env c) oldV newV k v =
      some (if containsNotSpecified msg then .ok () else .err msg) := by
    simp only [slotItemStep, if_neg hk, htype, hslot]
    split <;> rfl
  have hsplit : indexSlotLoop env (ctxDocFor env c) oldV newV oldV =
      indexSlotLoop env (ctxDocFor env c) oldV newV (pre ++ (k, v) :: rest) :=
    congrArg _ hold
  have hloop : indexSlotLoop env (ctxDocFor env c) oldV newV oldV =
      some (if containsNotSpecified msg then .ok () else .err msg) := by
    rw [hsplit, indexSlotLoop_append env (ctxDocFor env c) oldV newV pre _ hpre]
    simp [indexSlotLoop, hstep]
  unfold ctxDocFor at hloop
  constructor <;> intro hcn <;>
    simp [isUpdatedIndexSlotsRun, hpos, loadContexts, ctx_norm, hloop, hcn]

/-- Witness for C5: after a fall-through prefix of reserved keys, a
"not specified in serialization info" resolution failure for field `x`
yields `Updated`, and a different failure is propagated verbatim. -/
theorem c5_short_circuit_witness :
    (isUpdatedIndexSlotsRun impactNotSpecEnv cred1
      [("id", .str "owner1"), ("type", .str "Ex"), ("x", .num (mkRat 1 1))]
      []).1 = .ok () ∧
    (isUpdatedIndexSlotsRun impactOtherErrEnv cred1
      [("id", .str "owner1"), ("type", .str "Ex"), ("x", .num (mkRat 1 1))]
      []).1 = .err "schema fetch failed" := by
  constructor
  · exact (c5_resolution_failure_short_circuit impactNotSpecEnv cred1 _ []
      [("id", .str "owner1"), ("type", .str "Ex")] [] "x" (.num (mkRat 1 1))
      "Ex" "x not specified in serialization info"
      rfl rfl rfl (by decide) (by decide) rfl rfl).1 (by decide)
  · exact (c5_resolution_failure_short_circuit impactOtherErrEnv cred1 _ []
      [("id", .str "owner1"), ("type", .str "Ex")] [] "x" (.num (mkRat 1 1))
      "Ex" "schema fetch failed"
      rfl rfl rfl (by decide) (by decide) rfl rfl).2 (by decide)

/-- C6: in every run, `CreateCredential` is invoked only if the
index-impact check returned the `Updated` verdict (first conjunct);
if the check was reached and rejected, the run ends with an error
(second conjunct); and if the check was never reached and nothing
panicked — i.e. some earlier stage failed — the run ends with an error
and no reissuance request was sent (third conjunct). -/
theorem c6_no_reissue_before_impact (env : ProcEnv) (issuer owner id : String) :
    reissueGuard (processRun env issuer owner id) = true := by
  unfold processRun
  repeat' split
  all_goals first
    | rfl
    | exact reissueGuard_afterImpact env issuer _ _ _ _

/-- C7: for a credential carrying an expiration timestamp, `isUpdatable`
succeeds exactly when the credential is expired (expiration not strictly
after now) and the subject's `id` entry is a string that is not blank
after trimming; it fails in every other case (future expiration, or `id`
missing, nil, non-string, or blank). -/
theorem c7_isUpdatable_characterisation (now : Int) (c : Credential) (exp : Int)
    (hexp : c.expiration = some exp) :
    isUpdatable now c = .ok () ↔ (exp ≤ now ∧ subjectIdOk c = true) := by
  unfold isUpdatable subjectIdOk
  rw [hexp]
  by_cases h : now < exp
  · simp only [if_pos h]
    constructor
    · intro hc; cases hc
    · intro ⟨h1, _⟩; omega
  · simp only [if_neg h]
    have hle : exp ≤ now := by omega
    cases hs : c.credentialSubject with
    | none => simp [hs]
    | some subj =>
      cases hid : lookupVal subj "id" with
      | none => simp [hid]
      | some v =>
        cases v with
        | str s =>
          by_cases ht : goTrimSpace s = "" <;> simp [hid, ht, hle]
        | num q => simp [hid]
        | bool b => simp [hid]
        | null => simp [hid]
        | arr xs => simp [hid]
        | obj fs => simp [hid]

/-- Witness for C7: an expired credential with a valid subject id, at a
time after its expiration. -/
theorem c7_isUpdatable_witness : isUpdatable 100 cred1 = .ok () :=
  (c7_isUpdatable_characterisation 100 cred1 50 rfl).mpr ⟨by decide, by decide⟩

/-- C8: context aggregation never fails due to its inputs — for every
loader and URI list it returns `.ok`, and the document it returns is
exactly the spec-side aggregation: the empty list yields an empty
`@context` array, and a non-empty list yields the flattened `@context`
entries of precisely the URIs that resolved. -/
theorem c8_loadContexts_best_effort (loader : DocLoader) (ctxs : List String) :
    loadContexts loader ctxs = .ok (aggregateSpec loader ctxs) := by
  unfold loadContexts loadContextsDoc aggregateSpec
  rw [loadLoop_eq]
  simp

/-- C9, counterexample: the pipeline does mutate a field other than the
subject.  Fetching a credential whose context list is nil and running
the merklized-position-`None` impact analysis leaves the in-memory
credential with an empty (non-nil) context list. -/
theorem c9_counterexample_context_mutated :
    (processRun envNilCtx "did:iss" "owner1" "cred-1").memCred =
      some { credNilCtx with context := some [] } ∧
    credNilCtx.context = none ∧
    some ([] : List String) ≠ (none : Option (List String)) :=
  ⟨rfl, rfl, by decide⟩

/-- C9, amended: in every run of `Process`, the in-memory credential
agrees with the fetched credential on every field other than the
subject map and the context list, and the context list is changed only
by normalising a nil context to an empty list (in the position-`None`
impact branch); the subject map is touched only by the merge step. -/
theorem c9_frame_amended (env : ProcEnv) (issuer owner id : String)
    (c mc : Credential)
    (hfetch : env.getClaim issuer id = GoRes.ok (some c))
    (hmem : (processRun env issuer owner id).memCred = some mc) :
    (mc.id = c.id ∧ mc.issuer = c.issuer ∧ mc.typeList = c.typeList ∧
     mc.expiration = c.expiration ∧ mc.credentialStatus = c.credentialStatus ∧
     mc.credentialSchemaID = c.credentialSchemaID ∧
     mc.refreshService = c.refreshService ∧ mc.displayMethod = c.displayMethod) ∧
    (mc.context = c.context ∨ (c.context = none ∧ mc.context = some [])) := by
  unfold processRun at hmem
  rw [hfetch] at hmem
  dsimp only at hmem
  repeat' split at hmem
  all_goals first
    | (simp only [stageErr, stagePanic, Option.some.injEq] at hmem;
       subst hmem;
       exact ⟨⟨rfl, rfl, rfl, rfl, rfl, rfl, rfl, rfl⟩, Or.inl rfl⟩)
    | exact afterImpact_frame env issuer _ _ _ c mc _ _ hmem

/-- Witness for C9's amended theorem: the nil-context run mutates only
the context field, and only from nil to the empty list. -/
theorem c9_frame_witness :
    (({ credNilCtx with context := some [] } : Credential).id = credNilCtx.id ∧
     ({ credNilCtx with context := some [] } : Credential).issuer = credNilCtx.issuer ∧
     ({ credNilCtx with context := some [] } : Credential).typeList = credNilCtx.typeList ∧
     ({ credNilCtx with context := some [] } : Credential).expiration = credNilCtx.expiration ∧
     ({ credNilCtx with context := some [] } : Credential).credentialStatus = credNilCtx.credentialStatus ∧
     ({ credNilCtx with context := some [] } : Credential).credentialSchemaID = credNilCtx.credentialSchemaID ∧
     ({ credNilCtx with context := some [] } : Credential).refreshService = credNilCtx.refreshService ∧
     ({ credNilCtx with context := some [] } : Credential).displayMethod = credNilCtx.displayMethod) ∧
    (({ credNilCtx with context := some [] } : Credential).context = credNilCtx.context ∨
      (credNilCtx.context = none ∧
        ({ credNilCtx with context := some [] } : Credential).context = some [])) :=
  c9_frame_amended envNilCtx "did:iss" "owner1" "cred-1" credNilCtx
    { credNilCtx with context := some [] } rfl rfl

/-- C10, counterexample: extraction does succeed on non-integer
numeric nonces, but the returned value is not always the wrap the claim
describes.  For the float64-representable nonce −(2^63 + 2048) the
amd64 conversion saturates to the integer-indefinite value 2^63, while
the claimed truncate-and-wrap conversion gives 2^64 − (2^63 + 2048). -/
theorem c10_counterexample_saturation :
    extractRevocationNonce credHugeNegNonce =
      .ok (goFloat64ToUint64 (mkRat (-(2 ^ 63 + 2048)) 1)) ∧
    goFloat64ToUint64 (mkRat (-(2 ^ 63 + 2048)) 1) = 2 ^ 63 ∧
    truncWrapUint64 (mkRat (-(2 ^ 63 + 2048)) 1) = 2 ^ 64 - (2 ^ 63 + 2048) ∧
    (2 ^ 63 : ℕ) ≠ 2 ^ 64 - (2 ^ 63 + 2048) :=
  ⟨rfl, by decide, by decide, by decide⟩

/-- C10, amended: a numeric `revocationNonce` that is not a
non-negative integer (negative or fractional) is not rejected:
extraction succeeds and returns the amd64 `uint64` conversion of the
number, and on the range −2^63 ≤ n < 2^64 that conversion is exactly
the claim's truncate-and-wrap (fraction truncated toward zero, negative
values wrapped modulo 2^64); outside that range the hardware conversion
saturates instead of wrapping. -/
theorem c10_amended_nonce_conversion (c : Credential)
    (statusFields : List (String × Value)) (q : ℚ)
    (hstatus : c.credentialStatus = .obj statusFields)
    (hnonce : lookupVal statusFields "revocationNonce" = some (.num q))
    (_hnotnat : q < 0 ∨ q.den ≠ 1) :
    extractRevocationNonce c = .ok (goFloat64ToUint64 q) ∧
    (-(2 ^ 63) ≤ q → q < 2 ^ 64 → goFloat64ToUint64 q = truncWrapUint64 q) := by
  refine ⟨by simp [extractRevocationNonce, hstatus, hnonce], ?_⟩
  intro h1 h2
  unfold goFloat64ToUint64 truncWrapUint64
  by_cases hq : q < 2 ^ 63
  · have ht : ¬(ratTrunc q < -(2 ^ 63)) := by
      unfold ratTrunc
      split
      · rename_i h0
        have : (0 : ℤ) ≤ ⌊q⌋ := Int.floor_nonneg.mpr h0
        omega
      · have hle : ((-(2 ^ 63) : ℤ) : ℚ) ≤ q := by push_cast; exact h1
        have h3 : ((-(2 ^ 63) : ℤ) : ℚ) ≤ ((⌈q⌉ : ℤ) : ℚ) :=
          le_trans hle (Int.le_ceil q)
        have h4 : (-(2 ^ 63) : ℤ) ≤ ⌈q⌉ := by exact_mod_cast h3
        omega
    rw [if_pos hq, if_neg ht]
  · have h0q : (0 : ℚ) ≤ q := le_trans (by norm_num) (not_lt.mp hq)
    have h0 : 0 ≤ ratTrunc q := by
      unfold ratTrunc
      rw [if_pos h0q]
      exact Int.floor_nonneg.mpr h0q
    have hlt : ratTrunc q < 2 ^ 64 := by
      unfold ratTrunc
      rw [if_pos h0q]
      refine Int.floor_lt.mpr ?_
      push_cast
      exact h2
    rw [if_neg hq, if_pos h2, Int.emod_eq_of_lt h0 hlt]

/-- Witness for C10's amended theorem: nonce −1.5 is accepted, the
conversion agrees with the claimed wrap there, and yields 2^64 − 1. -/
theorem c10_amended_witness :
    extractRevocationNonce credNegNonce = .ok (goFloat64ToUint64 (mkRat (-3) 2)) ∧
    goFloat64ToUint64 (mkRat (-3) 2) = truncWrapUint64 (mkRat (-3) 2) ∧
    goFloat64ToUint64 (mkRat (-3) 2) = 18446744073709551615 := by
  have h := c10_amended_nonce_conversion credNegNonce
    [("revocationNonce", .num (mkRat (-3) 2))] (mkRat (-3) 2) rfl rfl
    (Or.inl (by decide))
  exact ⟨h.1, h.2 (by decide) (by decide), by decide⟩

end RefreshProof
